import Mathlib

/-
Verification of the land-subsidence prediction pipeline
(`src/utils/dataProcessing.ts`, `src/utils/plstm.ts`,
`src/pages/Prediction.tsx`, `src/components/DetailedTraining.tsx`).

JavaScript numbers are modelled by `JSNum`: either NaN, a signed infinity,
or an exact rational value (float rounding is idealised away; every literal
appearing in the claims is an exact dyadic/decimal rational, and all
comparisons in the claims are decided identically for doubles and for
rationals at those inputs).  `Math.random()` streams are modelled as
explicit functions from a draw index to a rational in `[0,1)`.
-/

/-- Model of a JavaScript number: NaN, a signed infinity (`true` = positive),
or a finite value represented exactly as a rational. -/
inductive JSNum where
  | nan : JSNum
  | inf : Bool → JSNum
  | num : ℚ → JSNum
deriving DecidableEq, Repr

/-- JavaScript subtraction on `JSNum`. -/
def JSNum.sub : JSNum → JSNum → JSNum
  | nan, _ => nan
  | _, nan => nan
  | inf s, inf t => if s = t then nan else inf s
  | inf s, num _ => inf s
  | num _, inf t => inf (!t)
  | num a, num b => num (a - b)

/-- JavaScript addition on `JSNum`. -/
def JSNum.add : JSNum → JSNum → JSNum
  | nan, _ => nan
  | _, nan => nan
  | inf s, inf t => if s = t then inf s else nan
  | inf s, num _ => inf s
  | num _, inf t => inf t
  | num a, num b => num (a + b)

/-- JavaScript division on `JSNum` (zero is treated as +0). -/
def JSNum.div : JSNum → JSNum → JSNum
  | nan, _ => nan
  | _, nan => nan
  | inf _, inf _ => nan
  | inf s, num b => if 0 ≤ b then inf s else inf (!s)
  | num _, inf _ => num 0
  | num a, num b =>
      if b = 0 then (if a = 0 then nan else inf (decide (0 < a))) else num (a / b)

/-- JavaScript `Math.abs` on `JSNum`. -/
def JSNum.abs : JSNum → JSNum
  | nan => nan
  | inf _ => inf true
  | num a => num |a|

/-- JavaScript `<` on `JSNum`: any comparison with NaN is false. -/
def JSNum.lt : JSNum → JSNum → Bool
  | nan, _ => false
  | _, nan => false
  | inf s, inf t => !s && t
  | inf s, num _ => !s
  | num _, inf t => t
  | num a, num b => decide (a < b)

/-- JavaScript truthiness of a number: NaN and 0 are falsy. -/
def JSNum.truthy : JSNum → Bool
  | nan => false
  | inf _ => true
  | num a => decide (a ≠ 0)

/-- JavaScript `isNaN` on `JSNum`. -/
def JSNum.isJsNaN : JSNum → Bool
  | nan => true
  | _ => false

/-- Finiteness of a `JSNum` (used only to state the claimed Cleaner
behaviour, which speaks about finite coordinates). -/
def JSNum.isFinite : JSNum → Bool
  | num _ => true
  | _ => false

/-- JavaScript `a || b` specialised to numbers: `b` when `a` is falsy. -/
def jsOr (a b : JSNum) : JSNum := if a.truthy then a else b

/-- `RinexData` record from `src/types/index.ts`. -/
structure RinexData where
  timestamp : String
  easting : JSNum
  northing : JSNum
  height : JSNum
  geoidSeparation : JSNum
deriving DecidableEq, Repr

/-- `ProcessedData` record from `src/types/index.ts`. -/
structure ProcessedData where
  timestamp : String
  easting : JSNum
  northing : JSNum
  height : JSNum
  subsidence : JSNum
  yearlySubsidence : JSNum
deriving DecidableEq, Repr

/-- `data[0]?.height || 50` from `calculateSubsidence`
(`src/utils/dataProcessing.ts`): the first height when the list is
non-empty and that height is truthy, otherwise the literal 50. -/
def baseHeightOf (data : List RinexData) : JSNum :=
  match data.head? with
  | some point => jsOr point.height (JSNum.num 50)
  | none => JSNum.num 50

/-- Body of the arrow function mapped over the data in `calculateSubsidence`:
given the base height and the 0-based index, build the processed record.
`yearlySubsidence = index > 0 ? subsidence / (index / 365) : 0`. -/
def processPoint (base : JSNum) (index : ℕ) (point : RinexData) : ProcessedData :=
  { timestamp := point.timestamp
    easting := point.easting
    northing := point.northing
    height := point.height
    subsidence := base.sub point.height
    yearlySubsidence :=
      if 0 < index then
        (base.sub point.height).div ((JSNum.num (index : ℚ)).div (JSNum.num 365))
      else JSNum.num 0 }

/-- `data.map((point, index) => ...)` with the running index made explicit. -/
def calcSubsidenceFrom (base : JSNum) : ℕ → List RinexData → List ProcessedData
  | _, [] => []
  | i, point :: rest => processPoint base i point :: calcSubsidenceFrom base (i + 1) rest

/-- `calculateSubsidence` from `src/utils/dataProcessing.ts`. -/
def calculateSubsidence (data : List RinexData) : List ProcessedData :=
  calcSubsidenceFrom (baseHeightOf data) 0 data

/-- The filter predicate of `cleanData` (`src/utils/dataProcessing.ts`):
`Math.abs(point.subsidence) < 100 && !isNaN(easting) && !isNaN(northing)
&& !isNaN(height)`. -/
def cleanKeep (point : ProcessedData) : Bool :=
  point.subsidence.abs.lt (JSNum.num 100) &&
    !point.easting.isJsNaN && !point.northing.isJsNaN && !point.height.isJsNaN

/-- `cleanData` from `src/utils/dataProcessing.ts`. -/
def cleanData (data : List ProcessedData) : List ProcessedData :=
  data.filter cleanKeep

/-- Modelled from the spec words for the Cleaner claim: keep a record iff
easting, northing and height are all finite and the subsidence magnitude is
strictly below 100.  Stated only to be compared with `cleanData`. -/
def cleanKeepSpec (point : ProcessedData) : Bool :=
  point.easting.isFinite && point.northing.isFinite && point.height.isFinite &&
    point.subsidence.abs.lt (JSNum.num 100)

/-- `generateTimeSeriesData` from `src/utils/dataProcessing.ts`:
`for (i = windowSize; i < data.length; i++) push({sequence: data.slice(i -
windowSize, i), target: data[i]})`.  Written as structural recursion over
the suffix starting at `j = i - windowSize`; the guard `windowSize <
remaining length` is exactly `i < data.length`, and once it fails it fails
for every later `i` as well, so stopping is equivalent to the loop. -/
def generateTimeSeriesData {α : Type} (data : List α) (windowSize : ℕ) :
    List (List α × α) :=
  match data with
  | [] => []
  | x :: xs =>
      if h : windowSize < (x :: xs).length then
        ((x :: xs).take windowSize, (x :: xs).get ⟨windowSize, h⟩) ::
          generateTimeSeriesData xs windowSize
      else []

/-- Risk category enumeration. -/
inductive RiskLevel where
  | low | medium | high | critical
deriving DecidableEq, Repr

/-- `getRiskLevel` from `src/pages/Prediction.tsx` (the same threshold chain
appears in `generateMockPoints`): strict `>` against 0.5, 0.3, 0.1 on the
magnitude. -/
def getRiskLevel (subsidence : ℚ) : RiskLevel :=
  if |subsidence| > 0.5 then RiskLevel.critical
  else if |subsidence| > 0.3 then RiskLevel.high
  else if |subsidence| > 0.1 then RiskLevel.medium
  else RiskLevel.low

/-- `PLSTMConfig` from `src/types/index.ts`. -/
structure PLSTMConfig where
  layers : ℕ
  neurons : ℕ
  epochs : ℕ
  batchSize : ℕ
  learningRate : ℝ
  parallelRegions : ℕ

/-- `EpochDetail` record produced once per epoch by the training loops. -/
structure EpochDetail where
  epoch : ℕ
  trainingLoss : ℝ
  validationLoss : ℝ
  accuracy : ℝ
  learningRate : ℝ
  duration : ℝ

/-- `ModelMetrics` from `src/types/index.ts` (extended shape with
`r2Score` and `epochDetails`, as populated by the training code). -/
structure ModelMetrics where
  mse : ℝ
  rmse : ℝ
  mae : ℝ
  accuracy : ℝ
  r2Score : ℝ
  trainingLoss : List ℝ
  validationLoss : List ℝ
  epochDetails : List EpochDetail

/-- One `EpochDetail` of `PLSTMModel.train` (`src/utils/plstm.ts`), for the
0-based loop variable `epoch`.  Each epoch runs 7 steps, each step draws two
`Math.random()` values (the simulated train and validation losses); the
values pushed are those of the last step (draws 12 and 13 of the epoch),
and the last step draws two further values for accuracy and duration, so an
epoch consumes 16 draws of the stream `rng`. -/
noncomputable def PLSTMModel.trainEpochDetail (config : PLSTMConfig)
    (rng : ℕ → ℚ) (epoch : ℕ) : EpochDetail :=
  { epoch := epoch + 1
    trainingLoss :=
      Real.exp (-(epoch : ℝ) * 0.1) * (0.5 + (rng (16 * epoch + 12) : ℝ) * 0.3)
    validationLoss :=
      Real.exp (-(epoch : ℝ) * 0.08) * (0.6 + (rng (16 * epoch + 13) : ℝ) * 0.2)
    accuracy :=
      0.3 + ((epoch : ℝ) / (config.epochs : ℝ)) * 0.6 +
        (rng (16 * epoch + 14) : ℝ) * 0.1
    learningRate := config.learningRate * (0.95 : ℝ) ^ (epoch / 10)
    duration := 200 + (rng (16 * epoch + 15) : ℝ) * 100 }

/-- `PLSTMModel.train` (`src/utils/plstm.ts`): the returned `ModelMetrics`.
The `data` argument and the progress callback do not influence the result;
`mse = 0.025 + Math.random() * 0.01` and `rmse = Math.sqrt(mse)`. -/
noncomputable def PLSTMModel.train (config : PLSTMConfig) (rng : ℕ → ℚ)
    (data : List ProcessedData) : ModelMetrics :=
  let epochDetails :=
    (List.range config.epochs).map (PLSTMModel.trainEpochDetail config rng)
  let mse : ℝ := 0.025 + (rng (16 * config.epochs) : ℝ) * 0.01
  { mse := mse
    rmse := Real.sqrt mse
    mae := 0.15 + (rng (16 * config.epochs + 1) : ℝ) * 0.05
    accuracy := 0.85 + (rng (16 * config.epochs + 2) : ℝ) * 0.1
    r2Score := 0.8 + (rng (16 * config.epochs + 3) : ℝ) * 0.15
    trainingLoss := epochDetails.map EpochDetail.trainingLoss
    validationLoss := epochDetails.map EpochDetail.validationLoss
    epochDetails := epochDetails }

/-- One `EpochDetail` of the `startTraining` epoch loop of the
`DetailedTraining` component, for the 1-based loop variable `epoch`.
Three `Math.random()` draws per epoch (training loss, validation loss,
accuracy); the wall-clock `duration` is modelled by the stream `dur`. -/
noncomputable def DetailedTraining.epochDetail (config : PLSTMConfig)
    (rng : ℕ → ℚ) (dur : ℕ → ℝ) (epoch : ℕ) : EpochDetail :=
  { epoch := epoch
    trainingLoss :=
      Real.exp (-(epoch : ℝ) * 0.05) * (0.8 + (rng (3 * (epoch - 1)) : ℝ) * 0.4)
    validationLoss :=
      Real.exp (-(epoch : ℝ) * 0.04) * (0.9 + (rng (3 * (epoch - 1) + 1) : ℝ) * 0.3)
    accuracy :=
      min 0.95 (0.3 + ((epoch : ℝ) / (config.epochs : ℝ)) * 0.6 +
        (rng (3 * (epoch - 1) + 2) : ℝ) * 0.1)
    learningRate := config.learningRate * (0.95 : ℝ) ^ (epoch / 10)
    duration := dur epoch }

/-- The `finalMetrics` object built by `startTraining` of the
`DetailedTraining` component: every aggregate field, including `rmse`, is an
independent `Math.random()` draw (`rmse: 0.12 + Math.random() * 0.02`). -/
noncomputable def DetailedTraining.finalMetrics (config : PLSTMConfig)
    (rng : ℕ → ℚ) (dur : ℕ → ℝ) : ModelMetrics :=
  let epochDetailsArray :=
    (List.range config.epochs).map
      (fun e => DetailedTraining.epochDetail config rng dur (e + 1))
  { mse := 0.015 + (rng (3 * config.epochs) : ℝ) * 0.01
    rmse := 0.12 + (rng (3 * config.epochs + 1) : ℝ) * 0.02
    mae := 0.08 + (rng (3 * config.epochs + 2) : ℝ) * 0.02
    accuracy := 0.88 + (rng (3 * config.epochs + 3) : ℝ) * 0.08
    r2Score := 0.85 + (rng (3 * config.epochs + 4) : ℝ) * 0.1
    trainingLoss := epochDetailsArray.map EpochDetail.trainingLoss
    validationLoss := epochDetailsArray.map EpochDetail.validationLoss
    epochDetails := epochDetailsArray }

/-- `PredictionResult` from `src/types/index.ts`. -/
structure PredictionResult where
  timestamp : String
  actualSubsidence : JSNum
  predictedSubsidence : JSNum
  confidence : ℚ
  riskLevel : RiskLevel
deriving DecidableEq, Repr

/-- Body of the arrow function mapped over the input in
`PLSTMModel.predict` (`src/utils/plstm.ts`): the record at 0-based position
`index` consumes the draws `start + 2*index` (noise) and `start + 2*index +
1` (confidence) of the global `Math.random()` stream, where `start` is the
stream position when the call begins. -/
def predictResult (rng : ℕ → ℚ) (start index : ℕ)
    (point : ProcessedData) : PredictionResult :=
  let noise : ℚ := (rng (start + 2 * index) - 0.5) * 0.1
  let predictedSubsidence := point.subsidence.add (JSNum.num noise)
  { timestamp := point.timestamp
    actualSubsidence := point.subsidence
    predictedSubsidence := predictedSubsidence
    confidence := 0.7 + rng (start + 2 * index + 1) * 0.25
    riskLevel :=
      if (JSNum.num 0.5).lt predictedSubsidence.abs then RiskLevel.critical
      else if (JSNum.num 0.3).lt predictedSubsidence.abs then RiskLevel.high
      else if (JSNum.num 0.1).lt predictedSubsidence.abs then RiskLevel.medium
      else RiskLevel.low }

/-- `data.map((point, index) => ...)` of `PLSTMModel.predict`, with the
running index made explicit. -/
def predictFrom (rng : ℕ → ℚ) (start : ℕ) : ℕ → List ProcessedData → List PredictionResult
  | _, [] => []
  | i, point :: rest => predictResult rng start i point :: predictFrom rng start (i + 1) rest

/-- The error message thrown by `PLSTMModel.predict` when `this.metrics`
is null. -/
def predictErrMsg : String := "Model must be trained before making predictions"

/-- `PLSTMModel.predict` (`src/utils/plstm.ts`): throws when the stored
metrics are null, otherwise maps over the input records.  `metrics` is the
`this.metrics` field (null iff no training run has completed), `start` the
position of the global `Math.random()` stream at call time. -/
def PLSTMModel.predict (metrics : Option ModelMetrics) (rng : ℕ → ℚ)
    (start : ℕ) (data : List ProcessedData) : Except String (List PredictionResult) :=
  match metrics with
  | none => Except.error predictErrMsg
  | some _ => Except.ok (predictFrom rng start 0 data)

/-- A processed record whose easting is positive infinity but whose other
fields are ordinary finite values. -/
def rInf : ProcessedData :=
  { timestamp := "2022-01-01"
    easting := JSNum.inf true
    northing := JSNum.num 0
    height := JSNum.num 0
    subsidence := JSNum.num 0
    yearlySubsidence := JSNum.num 0 }

/-- Claim C9: the Cleaner is idempotent; filtering already-filtered data
returns the same list unchanged. -/
theorem cleanData_idempotent (data : List ProcessedData) :
    cleanData (cleanData data) = cleanData data := by
  simp [cleanData, List.filter_filter]

/-- Claim C6 (counterexample): a record with an infinite easting coordinate
is kept by `cleanData`, although the claim says every record with a
non-finite coordinate is dropped; `cleanData` disagrees with the
spec-modelled keep-predicate on this record. -/
theorem cleanData_infinite_kept :
    cleanData [rInf] = [rInf] ∧ rInf.easting.isFinite = false ∧
      cleanData [rInf] ≠ [rInf].filter cleanKeepSpec := by decide

/-- Claim C6 (amended): `cleanData` keeps exactly the records whose three
coordinates are not NaN (infinite coordinates are kept) and whose
subsidence magnitude compares strictly below 100 under the JavaScript `<`
(so NaN or infinite subsidence is dropped). -/
theorem cleanData_mem_iff (data : List ProcessedData) (point : ProcessedData) :
    point ∈ cleanData data ↔
      point ∈ data ∧ point.subsidence.abs.lt (JSNum.num 100) = true ∧
        point.easting.isJsNaN = false ∧ point.northing.isJsNaN = false ∧
        point.height.isJsNaN = false := by
  simp [cleanData, List.mem_filter, cleanKeep, Bool.and_eq_true,
    Bool.not_eq_true', and_assoc]

/-- The classifier returns low whenever the magnitude is at most 0.1. -/
theorem getRiskLevel_low_of (q : ℚ) (h : |q| ≤ 0.1) :
    getRiskLevel q = RiskLevel.low := by
  have h5 : ¬(|q| > 0.5) := not_lt.mpr (le_trans h (by norm_num))
  have h3 : ¬(|q| > 0.3) := not_lt.mpr (le_trans h (by norm_num))
  have h1 : ¬(|q| > 0.1) := not_lt.mpr h
  rw [getRiskLevel, if_neg h5, if_neg h3, if_neg h1]

/-- The classifier returns high on magnitudes in (0.3, 0.5]. -/
theorem getRiskLevel_high_of (q : ℚ) (h1 : 0.3 < |q|) (h2 : |q| ≤ 0.5) :
    getRiskLevel q = RiskLevel.high := by
  rw [getRiskLevel, if_neg (not_lt.mpr h2), if_pos h1]

/-- The classifier returns critical on magnitudes above 0.5. -/
theorem getRiskLevel_critical_of (q : ℚ) (h : 0.5 < |q|) :
    getRiskLevel q = RiskLevel.critical := by
  rw [getRiskLevel, if_pos h]

/-- Claim C1 (counterexample): at rate exactly 0.1 the classifier returns
low, not medium as the claim states. -/
theorem getRiskLevel_boundary_tenth :
    getRiskLevel 0.1 = RiskLevel.low ∧ RiskLevel.low ≠ RiskLevel.medium := by
  constructor
  · exact getRiskLevel_low_of 0.1 (le_of_eq (abs_of_nonneg (by norm_num)))
  · decide

/-- Claim C1 (amended): every band boundary is resolved by strict `>` so a
value exactly at a boundary falls into the lower-severity band; hence 0.1
classifies as low, 0.5 as high (not critical) and 0.50001 as critical. -/
theorem getRiskLevel_bands (r : ℚ) :
    (getRiskLevel r = RiskLevel.low ↔ |r| ≤ 0.1) ∧
    (getRiskLevel r = RiskLevel.medium ↔ 0.1 < |r| ∧ |r| ≤ 0.3) ∧
    (getRiskLevel r = RiskLevel.high ↔ 0.3 < |r| ∧ |r| ≤ 0.5) ∧
    (getRiskLevel r = RiskLevel.critical ↔ 0.5 < |r|) ∧
    getRiskLevel 0.1 = RiskLevel.low ∧
    getRiskLevel 0.5 = RiskLevel.high ∧
    getRiskLevel 0.50001 = RiskLevel.critical := by
  have low_iff : getRiskLevel r = RiskLevel.low ↔ |r| ≤ 0.1 := by
    unfold getRiskLevel
    split_ifs with h1 h2 h3
    · exact iff_of_false (by simp) (by push_neg; linarith)
    · exact iff_of_false (by simp) (by push_neg; linarith)
    · exact iff_of_false (by simp) (by push_neg; linarith)
    · exact iff_of_true rfl (not_lt.mp h3)
  have medium_iff : getRiskLevel r = RiskLevel.medium ↔ 0.1 < |r| ∧ |r| ≤ 0.3 := by
    unfold getRiskLevel
    split_ifs with h1 h2 h3
    · exact iff_of_false (by simp) (by push_neg; intro _; linarith)
    · exact iff_of_false (by simp) (by push_neg; intro _; linarith)
    · exact iff_of_true rfl ⟨h3, not_lt.mp h2⟩
    · exact iff_of_false (by simp) (fun h => h3 h.1)
  have high_iff : getRiskLevel r = RiskLevel.high ↔ 0.3 < |r| ∧ |r| ≤ 0.5 := by
    unfold getRiskLevel
    split_ifs with h1 h2 h3
    · exact iff_of_false (by simp) (by push_neg; intro _; linarith)
    · exact iff_of_true rfl ⟨h2, not_lt.mp h1⟩
    · exact iff_of_false (by simp) (fun h => by linarith [h.1])
    · exact iff_of_false (by simp) (fun h => by linarith [h.1])
  have critical_iff : getRiskLevel r = RiskLevel.critical ↔ 0.5 < |r| := by
    unfold getRiskLevel
    split_ifs with h1 h2 h3
    · exact iff_of_true rfl h1
    · exact iff_of_false (by simp) h1
    · exact iff_of_false (by simp) h1
    · exact iff_of_false (by simp) h1
  have e1 : getRiskLevel 0.1 = RiskLevel.low :=
    getRiskLevel_low_of 0.1 (le_of_eq (abs_of_nonneg (by norm_num)))
  have e5 : getRiskLevel 0.5 = RiskLevel.high := by
    have ha : |(0.5 : ℚ)| = 0.5 := abs_of_nonneg (by norm_num)
    exact getRiskLevel_high_of 0.5 (by rw [ha]; norm_num) (le_of_eq ha)
  have e50001 : getRiskLevel 0.50001 = RiskLevel.critical := by
    have ha : |(0.50001 : ℚ)| = 0.50001 := abs_of_nonneg (by norm_num)
    exact getRiskLevel_critical_of 0.50001 (by rw [ha]; norm_num)
  exact ⟨low_iff, medium_iff, high_iff, critical_iff, e1, e5, e50001⟩

/-- For every window length, `generateTimeSeriesData` yields one sequence
per loop iteration `i = windowSize .. data.length - 1`. -/
theorem generateTimeSeriesData_length {α : Type} (data : List α) (L : ℕ) :
    (generateTimeSeriesData data L).length = data.length - L := by
  induction data with
  | nil => simp [generateTimeSeriesData]
  | cons x xs ih =>
      rw [generateTimeSeriesData]
      by_cases h : L < (x :: xs).length
      · rw [dif_pos h]
        simp only [List.length_cons, ih]
        simp at h
        omega
      · rw [dif_neg h]
        simp at h
        simp
        omega

/-- Position `j` of the sequence list holds the window starting at record
`j` together with record `j + windowSize` as target. -/
theorem generateTimeSeriesData_getElem? {α : Type} (data : List α) (L j : ℕ) :
    (generateTimeSeriesData data L)[j]? =
      (data[j + L]?).map (fun t => ((data.drop j).take L, t)) := by
  induction data generalizing j with
  | nil => simp [generateTimeSeriesData]
  | cons x xs ih =>
      rw [generateTimeSeriesData]
      by_cases h : L < (x :: xs).length
      · rw [dif_pos h]
        cases j with
        | zero =>
            simp [List.getElem?_eq_getElem h, List.get_eq_getElem]
        | succ j =>
            simpa [Nat.succ_add] using ih j
      · rw [dif_neg h]
        have hlen : (x :: xs).length ≤ j + L := by
          simp at h ⊢
          omega
        simp [List.getElem?_eq_none hlen]

/-- Claim C2: for window length L ≥ 1 the Sequencer yields exactly
`data.length - L` sequences (truncated subtraction, i.e. `max 0 (n-L)`),
the sequence at position j has context `records[j .. j+L-1]` and target
`record[j+L]` (so each target immediately follows its context), and a list
of exactly L records yields no sequences. -/
theorem sequencer_count_and_shape {α : Type} (data : List α) (L : ℕ)
    (hL : 1 ≤ L) :
    (generateTimeSeriesData data L).length = data.length - L ∧
    (∀ j (hj : j + L < data.length),
      (generateTimeSeriesData data L)[j]? =
        some ((data.drop j).take L, data.get ⟨j + L, hj⟩)) ∧
    (data.length = L → generateTimeSeriesData data L = []) := by
  refine ⟨generateTimeSeriesData_length data L, ?_, ?_⟩
  · intro j hj
    rw [generateTimeSeriesData_getElem?, List.getElem?_eq_getElem hj]
    simp [List.get_eq_getElem]
  · intro hlen
    have : (generateTimeSeriesData data L).length = 0 := by
      rw [generateTimeSeriesData_length, hlen]
      omega
    exact List.length_eq_zero.mp this

/-- Witness for claim C2 at the concrete list [10, 20, 30] with window
length 1. -/
theorem sequencer_count_and_shape_witness :
    (1 : ℕ) ≤ 1 ∧
      (generateTimeSeriesData ([10, 20, 30] : List ℕ) 1).length =
        ([10, 20, 30] : List ℕ).length - 1 :=
  ⟨by decide, (sequencer_count_and_shape ([10, 20, 30] : List ℕ) 1 (by decide)).1⟩

/-- Record `j` of the mapped output is the processed form of input record
`j`, at running index `i + j`. -/
theorem calcSubsidenceFrom_getElem? (base : JSNum) (i j : ℕ)
    (data : List RinexData) :
    (calcSubsidenceFrom base i data)[j]? =
      (data[j]?).map (processPoint base (i + j)) := by
  induction data generalizing i j with
  | nil => simp [calcSubsidenceFrom]
  | cons p rest ih =>
      cases j with
      | zero => simp [calcSubsidenceFrom]
      | succ j =>
          have harith : i + 1 + j = i + (j + 1) := by omega
          simp only [calcSubsidenceFrom, List.getElem?_cons_succ]
          rw [ih (i + 1) j, harith]

/-- A station observation with the given timestamp and height and zero for
the remaining coordinates. -/
def mkRinex (ts : String) (h : ℚ) : RinexData :=
  { timestamp := ts
    easting := JSNum.num 0
    northing := JSNum.num 0
    height := JSNum.num h
    geoidSeparation := JSNum.num 0 }

/-- Three daily observations whose subsidence series is 0, 2, 2: the
subsidence does not change between the second and third record. -/
def dC3 : List RinexData :=
  [mkRinex "2022-01-01" 50, mkRinex "2022-01-02" 48, mkRinex "2022-01-03" 48]

/-- Claim C3 (counterexample): on `dC3` the derived subsidence series is
0, 2, 2 and the code yields yearlySubsidence 365 at index 2, while the
claimed formula velocity[2] × 365 = ((2 − 2) / Δt) × 365 gives 0 (the
records are daily, Δt = 1; indeed the first difference is 0, so the claimed
value is 0 for every positive Δt). -/
theorem yearly_rate_not_velocity :
    (calculateSubsidence dC3).map ProcessedData.subsidence =
      [JSNum.num 0, JSNum.num 2, JSNum.num 2] ∧
    (calculateSubsidence dC3).map ProcessedData.yearlySubsidence =
      [JSNum.num 0, JSNum.num 730, JSNum.num 365] ∧
    JSNum.num ((((2 : ℚ) - 2) / 1) * 365) = JSNum.num 0 ∧
    JSNum.num 365 ≠ JSNum.num 0 := by
  norm_num [calculateSubsidence, calcSubsidenceFrom, processPoint, baseHeightOf,
    jsOr, JSNum.truthy, JSNum.sub, JSNum.div, dC3, mkRinex]

/-- Claim C3 (amended): for `i > 0` the yearly rate stored at index `i` is
`subsidence[i] / (i / 365)`, the average rate over the whole series so far
(365 × subsidence[i] / i for finite subsidence), not the first-difference
velocity times 365; index 0 carries 0 (this part of the original claim
holds and is restated by `processPoint` evaluating its guard). -/
theorem yearlySubsidence_avg_rate (data : List RinexData) (i : ℕ)
    (hi : 0 < i) (r : ProcessedData)
    (hr : (calculateSubsidence data)[i]? = some r) :
    r.yearlySubsidence =
      r.subsidence.div ((JSNum.num (i : ℚ)).div (JSNum.num 365)) ∧
    ∀ q : ℚ, r.subsidence = JSNum.num q →
      r.yearlySubsidence = JSNum.num (q * 365 / (i : ℚ)) := by
  rw [calculateSubsidence, calcSubsidenceFrom_getElem?, Nat.zero_add] at hr
  obtain ⟨point, hpt, hmk⟩ := Option.map_eq_some'.mp hr
  subst hmk
  constructor
  · simp [processPoint, if_pos hi]
  · intro q hq
    simp only [processPoint, if_pos hi] at hq ⊢
    rw [hq]
    have hi0 : ((i : ℚ)) ≠ 0 := ne_of_gt (by exact_mod_cast hi)
    have h365 : ((365 : ℚ)) ≠ 0 := by norm_num
    have hdiv : ((i : ℚ)) / 365 ≠ 0 := div_ne_zero hi0 h365
    simp only [JSNum.div, if_neg h365, if_neg hdiv]
    rw [div_div_eq_mul_div]

/-- The record of `dC3` at index 2 as built by the code. -/
def pEx2 : ProcessedData := processPoint (JSNum.num 50) 2 (mkRinex "2022-01-03" 48)

/-- Witness for the amended claim C3 at the concrete series `dC3`, index 2. -/
theorem yearlySubsidence_avg_rate_witness :
    (0 < 2) ∧ (calculateSubsidence dC3)[2]? = some pEx2 ∧
      (pEx2.yearlySubsidence =
        pEx2.subsidence.div ((JSNum.num ((2 : ℕ) : ℚ)).div (JSNum.num 365)) ∧
      ∀ q : ℚ, pEx2.subsidence = JSNum.num q →
        pEx2.yearlySubsidence = JSNum.num (q * 365 / ((2 : ℕ) : ℚ))) :=
  ⟨by decide, by
      norm_num [calculateSubsidence, calcSubsidenceFrom, processPoint, baseHeightOf,
        jsOr, JSNum.truthy, JSNum.sub, JSNum.div, dC3, mkRinex, pEx2], yearlySubsidence_avg_rate dC3 2 (by decide) pEx2 (by
      norm_num [calculateSubsidence, calcSubsidenceFrom, processPoint, baseHeightOf,
        jsOr, JSNum.truthy, JSNum.sub, JSNum.div, dC3, mkRinex, pEx2])⟩

/-- A single observation whose first (and only) height is 0. -/
def dZeroHeight : List RinexData := [mkRinex "2022-01-01" 0]

/-- Claim C4 (counterexample): when the first height is 0, the falsy-guard
`data[0]?.height || 50` replaces the baseline with 50, so the first record
has subsidence 50, not 0. -/
theorem subsidence_head_fallback :
    (calculateSubsidence dZeroHeight).map ProcessedData.subsidence =
      [JSNum.num 50] ∧ JSNum.num 50 ≠ JSNum.num 0 := by
  norm_num [calculateSubsidence, calcSubsidenceFrom, processPoint, baseHeightOf,
    jsOr, JSNum.truthy, JSNum.sub, dZeroHeight, mkRinex]

/-- Claim C4 (amended): for every non-empty series whose first height is a
finite nonzero number, the first processed record has subsidence 0 (the
baseline is the first height); when the first height is 0 or NaN, the code
substitutes the literal 50 as baseline instead. -/
theorem subsidence_head_zero (p : RinexData) (rest : List RinexData) (q : ℚ)
    (hq : p.height = JSNum.num q) (hq0 : q ≠ 0) (r : ProcessedData)
    (hr : (calculateSubsidence (p :: rest))[0]? = some r) :
    r.subsidence = JSNum.num 0 := by
  have hbase : baseHeightOf (p :: rest) = JSNum.num q := by
    simp [baseHeightOf, hq, jsOr, JSNum.truthy, hq0]
  rw [calculateSubsidence, hbase] at hr
  simp only [calcSubsidenceFrom, List.getElem?_cons_zero, Option.some.injEq] at hr
  subst hr
  simp [processPoint, hq, JSNum.sub]

/-- The processed form of a single observation of height 49. -/
def pEx0 : ProcessedData := processPoint (JSNum.num 49) 0 (mkRinex "2022-01-01" 49)

/-- Witness for the amended claim C4 at a one-record series of height 49. -/
theorem subsidence_head_zero_witness :
    (mkRinex "2022-01-01" 49).height = JSNum.num 49 ∧ (49 : ℚ) ≠ 0 ∧
      (calculateSubsidence [mkRinex "2022-01-01" 49])[0]? = some pEx0 ∧
      pEx0.subsidence = JSNum.num 0 :=
  ⟨rfl, by norm_num, by
      norm_num [calculateSubsidence, calcSubsidenceFrom, processPoint, baseHeightOf,
        jsOr, JSNum.truthy, JSNum.sub, JSNum.div, mkRinex, pEx0],
    subsidence_head_zero (mkRinex "2022-01-01" 49) [] 49 rfl (by norm_num) pEx0
      (by
      norm_num [calculateSubsidence, calcSubsidenceFrom, processPoint, baseHeightOf,
        jsOr, JSNum.truthy, JSNum.sub, JSNum.div, mkRinex, pEx0])⟩

/-- The all-zero random stream. -/
def zeroRng : ℕ → ℚ := fun _ => 0

/-- A zero wall-clock duration stream. -/
noncomputable def zeroDur : ℕ → ℝ := fun _ => 0

/-- A concrete configuration (epochs = 5, learning rate 0.001). -/
noncomputable def cfgW : PLSTMConfig :=
  { layers := 2, neurons := 64, epochs := 5, batchSize := 16,
    learningRate := 0.001, parallelRegions := 2 }

/-- Claim C5: `PLSTMModel.train` always returns `rmse = Math.sqrt(mse)`,
but the `finalMetrics` of the DetailedTraining component draws `rmse`
independently of `mse`; with all random draws 0 it returns `mse = 0.015`
and `rmse = 0.12`, and `0.12 ≠ sqrt 0.015` since `0.12 ^ 2 = 0.0144`. -/
theorem rmse_sqrt_mse_check :
    (∀ (config : PLSTMConfig) (rng : ℕ → ℚ) (data : List ProcessedData),
      (PLSTMModel.train config rng data).rmse =
        Real.sqrt ((PLSTMModel.train config rng data).mse)) ∧
    (DetailedTraining.finalMetrics cfgW zeroRng zeroDur).mse = 0.015 ∧
    (DetailedTraining.finalMetrics cfgW zeroRng zeroDur).rmse = 0.12 ∧
    (DetailedTraining.finalMetrics cfgW zeroRng zeroDur).rmse ≠
      Real.sqrt ((DetailedTraining.finalMetrics cfgW zeroRng zeroDur).mse) := by
  have hmse : (DetailedTraining.finalMetrics cfgW zeroRng zeroDur).mse = 0.015 := by
    norm_num [DetailedTraining.finalMetrics, zeroRng]
  have hrmse : (DetailedTraining.finalMetrics cfgW zeroRng zeroDur).rmse = 0.12 := by
    norm_num [DetailedTraining.finalMetrics, zeroRng]
  refine ⟨fun config rng data => rfl, hmse, hrmse, ?_⟩
  intro h
  rw [hrmse, hmse] at h
  have h2 : (0.12 : ℝ) ^ 2 = 0.015 := by
    rw [h]
    exact Real.sq_sqrt (by norm_num)
  norm_num at h2

/-- Claim C7: a completed `PLSTMModel.train` run with `epochs = E` returns
exactly E epoch details and E training and validation losses, the epoch
field at position j is j + 1 (epochs 1..E in order), and every recorded
loss is strictly positive; the DetailedTraining epoch loop satisfies the
same properties. -/
theorem train_epoch_series (config : PLSTMConfig) (rng : ℕ → ℚ)
    (data : List ProcessedData) (hr : ∀ k, 0 ≤ rng k) :
    (PLSTMModel.train config rng data).epochDetails.length = config.epochs ∧
    (PLSTMModel.train config rng data).trainingLoss.length = config.epochs ∧
    (PLSTMModel.train config rng data).validationLoss.length = config.epochs ∧
    (∀ j, j < config.epochs → ∃ d,
      (PLSTMModel.train config rng data).epochDetails[j]? = some d ∧
        d.epoch = j + 1) ∧
    (∀ x ∈ (PLSTMModel.train config rng data).trainingLoss, 0 < x) ∧
    (∀ x ∈ (PLSTMModel.train config rng data).validationLoss, 0 < x) ∧
    ∀ dur : ℕ → ℝ,
      (DetailedTraining.finalMetrics config rng dur).epochDetails.length =
        config.epochs ∧
      (∀ j, j < config.epochs → ∃ d,
        (DetailedTraining.finalMetrics config rng dur).epochDetails[j]? = some d ∧
          d.epoch = j + 1) ∧
      (∀ x ∈ (DetailedTraining.finalMetrics config rng dur).trainingLoss, 0 < x) ∧
      (∀ x ∈ (DetailedTraining.finalMetrics config rng dur).validationLoss, 0 < x) := by
  have hcast : ∀ k, (0 : ℝ) ≤ (rng k : ℝ) := fun k => by exact_mod_cast hr k
  refine ⟨?_, ?_, ?_, ?_, ?_, ?_, ?_⟩
  · simp [PLSTMModel.train]
  · simp [PLSTMModel.train]
  · simp [PLSTMModel.train]
  · intro j hj
    refine ⟨PLSTMModel.trainEpochDetail config rng j, ?_, rfl⟩
    simp [PLSTMModel.train, List.getElem?_map, List.getElem?_range hj]
  · intro x hx
    simp only [PLSTMModel.train, List.map_map, List.mem_map, List.mem_range] at hx
    obtain ⟨e, _, rfl⟩ := hx
    exact mul_pos (Real.exp_pos _)
      (add_pos_of_pos_of_nonneg (by norm_num)
        (mul_nonneg (hcast _) (by norm_num)))
  · intro x hx
    simp only [PLSTMModel.train, List.map_map, List.mem_map, List.mem_range] at hx
    obtain ⟨e, _, rfl⟩ := hx
    exact mul_pos (Real.exp_pos _)
      (add_pos_of_pos_of_nonneg (by norm_num)
        (mul_nonneg (hcast _) (by norm_num)))
  · intro dur
    refine ⟨?_, ?_, ?_, ?_⟩
    · simp [DetailedTraining.finalMetrics]
    · intro j hj
      refine ⟨DetailedTraining.epochDetail config rng dur (j + 1), ?_, rfl⟩
      simp [DetailedTraining.finalMetrics, List.getElem?_map, List.getElem?_range hj]
    · intro x hx
      simp only [DetailedTraining.finalMetrics, List.map_map, List.mem_map,
        List.mem_range] at hx
      obtain ⟨e, _, rfl⟩ := hx
      exact mul_pos (Real.exp_pos _)
        (add_pos_of_pos_of_nonneg (by norm_num)
          (mul_nonneg (hcast _) (by norm_num)))
    · intro x hx
      simp only [DetailedTraining.finalMetrics, List.map_map, List.mem_map,
        List.mem_range] at hx
      obtain ⟨e, _, rfl⟩ := hx
      exact mul_pos (Real.exp_pos _)
        (add_pos_of_pos_of_nonneg (by norm_num)
          (mul_nonneg (hcast _) (by norm_num)))

/-- Witness for claim C7 at the all-zero stream and epochs = 5. -/
theorem train_epoch_series_witness :
    (∀ k, 0 ≤ zeroRng k) ∧
      (PLSTMModel.train cfgW zeroRng []).epochDetails.length = cfgW.epochs :=
  ⟨fun _ => le_refl 0, (train_epoch_series cfgW zeroRng [] (fun _ => le_refl 0)).1⟩

/-- A concrete `Math.random()` stream: draw k is (k mod 4) / 4, so every
draw lies in [0,1) (see `fracRng_range`) and consecutive draws differ. -/
def fracRng : ℕ → ℚ := fun k => ((k % 4 : ℕ) : ℚ) / 4

/-- Every draw of `fracRng` is a value `Math.random()` can return. -/
theorem fracRng_range (k : ℕ) : 0 ≤ fracRng k ∧ fracRng k < 1 := by
  constructor
  · rw [fracRng]
    positivity
  · rw [fracRng, div_lt_one (by norm_num)]
    exact_mod_cast Nat.mod_lt k (by norm_num)

/-- `fracRng` shifted by three positions. -/
def shiftRng : ℕ → ℚ := fun k => fracRng (3 + k)

/-- A processed record with subsidence 0. -/
def ptA : ProcessedData :=
  { timestamp := "2024-01-01"
    easting := JSNum.num 0
    northing := JSNum.num 0
    height := JSNum.num 50
    subsidence := JSNum.num 0
    yearlySubsidence := JSNum.num 0 }

/-- A stored metrics object marking the model as trained (its field values
are never read by `predict`). -/
noncomputable def mWit : ModelMetrics :=
  { mse := 0, rmse := 0, mae := 0, accuracy := 0, r2Score := 0,
    trainingLoss := [], validationLoss := [], epochDetails := [] }

/-- Claim C8 (counterexample): two successive `predict` calls on the same
trained model and the same one-record input are not identical, because the
second call reads the global random stream two positions further on (the
first call consumed two draws); already the confidence fields differ.  The
stream `fracRng` draws only values in [0,1), so the run is realizable. -/
theorem predict_calls_differ :
    PLSTMModel.predict (some mWit) fracRng 0 [ptA] ≠
      PLSTMModel.predict (some mWit) fracRng 2 [ptA] := by
  intro h
  have h2 : predictFrom fracRng 0 0 [ptA] = predictFrom fracRng 2 0 [ptA] := by
    simpa [PLSTMModel.predict] using h
  have h3 := congrArg (fun l => l.map PredictionResult.confidence) h2
  simp only [predictFrom, predictResult, fracRng, List.map_cons, List.map_nil,
    List.cons.injEq, and_true] at h3
  norm_num at h3

/-- Records are processed left to right, the record at running index i
consuming draws `start + 2i` and `start + 2i + 1`; two runs reading equal
draws produce equal results. -/
theorem predictFrom_congr (rng1 rng2 : ℕ → ℚ) (s1 s2 : ℕ)
    (h : ∀ k, rng1 (s1 + k) = rng2 (s2 + k)) (i : ℕ)
    (data : List ProcessedData) :
    predictFrom rng1 s1 i data = predictFrom rng2 s2 i data := by
  induction data generalizing i with
  | nil => rfl
  | cons p rest ih =>
      have e1 := h (2 * i)
      have e2 := h (2 * i + 1)
      rw [← Nat.add_assoc] at e2
      rw [← Nat.add_assoc (m := 2 * i) (k := 1)] at e2
      simp only [predictFrom]
      rw [ih (i + 1)]
      simp [predictResult, e1, e2]

/-- Claim C8 (amended): the output of `predict` is a deterministic function
of the stored parameters, the input list and the random draws it reads:
two calls that read identical sections of the random stream return
identical result lists (while two successive calls sharing the advancing
global stream read different draws, see the counterexample). -/
theorem predict_deterministic (metrics : ModelMetrics) (rng1 rng2 : ℕ → ℚ)
    (s1 s2 : ℕ) (data : List ProcessedData)
    (h : ∀ k, rng1 (s1 + k) = rng2 (s2 + k)) :
    PLSTMModel.predict (some metrics) rng1 s1 data =
      PLSTMModel.predict (some metrics) rng2 s2 data := by
  simp [PLSTMModel.predict, predictFrom_congr rng1 rng2 s1 s2 h 0 data]

/-- Witness for the amended claim C8: reading `fracRng` from position 3
equals reading its shift from position 0. -/
theorem predict_deterministic_witness :
    (∀ k, fracRng (3 + k) = shiftRng (0 + k)) ∧
      PLSTMModel.predict (some mWit) fracRng 3 [ptA] =
        PLSTMModel.predict (some mWit) shiftRng 0 [ptA] :=
  ⟨fun k => by simp [shiftRng],
    predict_deterministic mWit fracRng shiftRng 3 0 [ptA]
      (fun k => by simp [shiftRng])⟩

/-- `predict` emits one result per input record. -/
theorem predictFrom_length (rng : ℕ → ℚ) (s : ℕ) (i : ℕ)
    (data : List ProcessedData) :
    (predictFrom rng s i data).length = data.length := by
  induction data generalizing i with
  | nil => rfl
  | cons p rest ih => simp [predictFrom, ih]

/-- Result j of `predictFrom` is the predicted form of input record j. -/
theorem predictFrom_getElem? (rng : ℕ → ℚ) (s i j : ℕ)
    (data : List ProcessedData) :
    (predictFrom rng s i data)[j]? =
      (data[j]?).map (predictResult rng s (i + j)) := by
  induction data generalizing i j with
  | nil => simp [predictFrom]
  | cons p rest ih =>
      cases j with
      | zero => simp [predictFrom]
      | succ j =>
          have harith : i + 1 + j = i + (j + 1) := by omega
          simp only [predictFrom, List.getElem?_cons_succ]
          rw [ih (i + 1), harith]

/-- Claim C10: `predict` returns the error value iff the stored metrics are
null (no completed training run); on a trained model it returns one
`PredictionResult` per input record in order, and result j carries exactly
the timestamp and subsidence of input record j. -/
theorem predict_contract (metrics : Option ModelMetrics) (rng : ℕ → ℚ)
    (start : ℕ) (data : List ProcessedData) :
    ((∃ e, PLSTMModel.predict metrics rng start data = Except.error e) ↔
      metrics = none) ∧
    (metrics = none →
      PLSTMModel.predict metrics rng start data = Except.error predictErrMsg) ∧
    ∀ m, metrics = some m → ∃ results,
      PLSTMModel.predict metrics rng start data = Except.ok results ∧
      results.length = data.length ∧
      ∀ (j : ℕ) (r : PredictionResult) (p : ProcessedData),
        results[j]? = some r → data[j]? = some p →
          r.timestamp = p.timestamp ∧ r.actualSubsidence = p.subsidence := by
  cases metrics with
  | none =>
      refine ⟨⟨fun _ => rfl, fun _ => ⟨predictErrMsg, rfl⟩⟩, fun _ => rfl, ?_⟩
      intro m hm
      exact absurd hm (by simp)
  | some m0 =>
      refine ⟨⟨?_, fun hn => absurd hn (by simp)⟩, fun hn => absurd hn (by simp), ?_⟩
      · rintro ⟨e, he⟩
        exact absurd he (by simp [PLSTMModel.predict])
      · intro m hm
        refine ⟨predictFrom rng start 0 data, rfl,
          predictFrom_length rng start 0 data, ?_⟩
        intro j r p hr hp
        rw [predictFrom_getElem?, hp] at hr
        simp only [Option.map_some', Option.some.injEq] at hr
        subst hr
        exact ⟨rfl, rfl⟩

/-- Witness for claim C10 on a trained model and a one-record input. -/
theorem predict_contract_witness :
    ∃ results,
      PLSTMModel.predict (some mWit) zeroRng 0 [ptA] = Except.ok results ∧
      results.length = [ptA].length ∧
      ∀ (j : ℕ) (r : PredictionResult) (p : ProcessedData),
        results[j]? = some r → [ptA][j]? = some p →
          r.timestamp = p.timestamp ∧ r.actualSubsidence = p.subsidence :=
  (predict_contract (some mWit) zeroRng 0 [ptA]).2.2 mWit rfl
